import Mathlib

/-!
Verification of the Hospital Record Coordinator extracted from the
hospital-management REST API.  The definitions below are a shallow
embedding of the route handlers of the repository:

* the `patients.js` / `doctors.js` / `employees.js` (medicine) routes of
  `hospital-api`, which key entities by a sequential numeric `id` field and
  allocate ids by reading the current maximum and adding one;
* the legacy-style routes (`doctorVisits.js`, the medicine-assignment
  router and the ward router), which look records up by their document key
  (`findById`) and carry inline role checks.

Stores are lists of records; `findOne`/`findById` become `List.find?`,
`findOneAndUpdate`/`save` of a fetched document become `updateFirst`, and
`findOneAndDelete` becomes `removeFirst`.  HTTP responses are abstracted to
the `Outcome` taxonomy of the specification (the wire mapping being
NotFound -> 404, Forbidden -> 401 "Not authorized", Conflict -> 400
"already exists", validation -> 400 `errors.array()`, unexpected -> 500).
-/

namespace Hospital

/-- Response taxonomy.  `ok` covers the 200/201 success responses,
`badRequest` the express-validator 400 responses, `forbidden` the inline
role-check 401 "Not authorized ..." responses, `notFound` the 404
responses, `conflict` the 400 "... already exists" duplicate responses and
`serverError` the generic catch-all 500 response. -/
inductive Outcome where
  | ok
  | badRequest
  | forbidden
  | notFound
  | conflict
  | serverError
deriving DecidableEq

/-- Update the first element satisfying `p` (the effect of fetching a
document with `findOne`/`findById`, mutating it and calling `save`, or of
a single-document `findOneAndUpdate`). -/
def updateFirst (p : α → Bool) (f : α → α) : List α → List α
  | [] => []
  | a :: as => if p a then f a :: as else a :: updateFirst p f as

/-- Remove the first element satisfying `p` (the effect of a
single-document `findOneAndDelete` / `remove`). -/
def removeFirst (p : α → Bool) : List α → List α
  | [] => []
  | a :: as => if p a then as else a :: removeFirst p as

/-- Running maximum of a nonempty list of ids, seeded with `m`. -/
def maxIdGo (m : Nat) : List Nat → Nat
  | [] => m
  | i :: is => maxIdGo (max m i) is

/-- The id of the record returned by `findOne().sort('-id')`: the maximum
`id` field present in the store, or `none` on an empty store. -/
def maxId? : List Nat → Option Nat
  | [] => none
  | i :: is => some (maxIdGo i is)

/-- The sequential id allocator of the create handlers:
`highest ? highest.id + 1 : 1`. -/
def nextIdFrom (ids : List Nat) : Nat :=
  match maxId? ids with
  | none => 1
  | some m => m + 1

theorem le_maxIdGo_seed (m : Nat) (l : List Nat) : m ≤ maxIdGo m l := by
  induction l generalizing m with
  | nil => exact Nat.le_refl m
  | cons i is ih =>
    exact Nat.le_trans (Nat.le_max_left m i) (ih (max m i))

theorem le_maxIdGo_of_mem {i : Nat} {l : List Nat} (m : Nat) (h : i ∈ l) :
    i ≤ maxIdGo m l := by
  induction l generalizing m with
  | nil => cases h
  | cons j js ih =>
    rcases List.mem_cons.mp h with rfl | h
    · exact Nat.le_trans (Nat.le_max_right m i) (le_maxIdGo_seed _ _)
    · exact ih _ h

theorem maxIdGo_mem_or (m : Nat) (l : List Nat) :
    maxIdGo m l = m ∨ maxIdGo m l ∈ l := by
  induction l generalizing m with
  | nil => exact Or.inl rfl
  | cons i is ih =>
    rcases ih (max m i) with h | h
    · rcases Nat.le_total m i with hmi | him
      · right
        rw [show maxIdGo m (i :: is) = maxIdGo (max m i) is from rfl, h,
          Nat.max_eq_right hmi]
        exact List.mem_cons_self i is
      · left
        rw [show maxIdGo m (i :: is) = maxIdGo (max m i) is from rfl, h,
          Nat.max_eq_left him]
    · right
      exact List.mem_cons_of_mem i h

/-- Characterisation of `maxId?`: it returns a member that bounds every
member. -/
theorem maxId?_spec {l : List Nat} {m : Nat} (h : maxId? l = some m) :
    m ∈ l ∧ ∀ i ∈ l, i ≤ m := by
  cases l with
  | nil => cases h
  | cons i is =>
    have hm : maxIdGo i is = m := by
      have := h
      simp [maxId?] at this
      exact this
    constructor
    · rcases maxIdGo_mem_or i is with h' | h'
      · rw [← hm, h']; exact List.mem_cons_self i is
      · rw [← hm]; exact List.mem_cons_of_mem i h'
    · intro j hj
      rcases List.mem_cons.mp hj with rfl | hj
      · rw [← hm]; exact le_maxIdGo_seed _ _
      · rw [← hm]; exact le_maxIdGo_of_mem _ hj

/-- Converse characterisation: a member bounding every member is the value
of `maxId?`. -/
theorem maxId?_eq_some {l : List Nat} {m : Nat} (hm : m ∈ l)
    (hub : ∀ i ∈ l, i ≤ m) : maxId? l = some m := by
  cases hl : maxId? l with
  | none =>
    cases l with
    | nil => cases hm
    | cons i is => cases hl
  | some m' =>
    rcases maxId?_spec hl with ⟨hmem, hub'⟩
    have h1 : m' ≤ m := hub _ hmem
    have h2 : m ≤ m' := hub' _ hm
    exact congrArg some (Nat.le_antisymm h1 h2)

theorem lt_nextIdFrom_of_mem {i : Nat} {l : List Nat} (h : i ∈ l) :
    i < nextIdFrom l := by
  cases hl : maxId? l with
  | none =>
    cases l with
    | nil => cases h
    | cons j js => cases hl
  | some m =>
    rcases maxId?_spec hl with ⟨_, hub⟩
    have : i ≤ m := hub _ h
    simp only [nextIdFrom, hl]
    omega

theorem maxId?_append_nextId (l : List Nat) :
    maxId? (l ++ [nextIdFrom l]) = some (nextIdFrom l) := by
  apply maxId?_eq_some
  · exact List.mem_append_right l (List.mem_singleton.mpr rfl)
  · intro i hi
    rcases List.mem_append.mp hi with hi | hi
    · exact Nat.le_of_lt (lt_nextIdFrom_of_mem hi)
    · rw [List.mem_singleton.mp hi]

theorem nextIdFrom_append_nextId (l : List Nat) :
    nextIdFrom (l ++ [nextIdFrom l]) = nextIdFrom l + 1 := by
  rw [nextIdFrom.eq_def, maxId?_append_nextId l]

/-- A user record.  The numeric-id User model file itself is not part of
the extracted sources; the fields here follow the `User` schema (unique
`email`, string `role`) together with the numeric `id` the
`User.findOne({ id: userId })` lookups of `patients.js` rely on. -/
structure User where
  id : Nat
  email : String
  role : String
  password : String
deriving DecidableEq

/-- Employee record, after the numeric-id employee schema
(`id` unique, `userId` unique, dob, hireDate, salary). -/
structure Employee where
  id : Nat
  userId : Nat
  dob : String
  hireDate : String
  salary : Nat
deriving DecidableEq

/-- Doctor record, after the doctor schema (`id` unique, `empId`
referencing an Employee, `charges`). -/
structure Doctor where
  id : Nat
  empId : Nat
  charges : Nat
deriving DecidableEq

/-- Patient record, after the numeric-id patient schema. -/
structure Patient where
  id : Nat
  userId : Nat
  wardId : Option Nat
  doctorId : Nat
  dateOfAdm : String
  bloodGroup : String
  dob : String
  prescription : Option String
  bedAllocated : Option Nat
  paymentStatus : String
  patientProblem : String
deriving DecidableEq

/-- Medicine record, after the medicine schema (`id` unique, name, price). -/
structure Medicine where
  id : Nat
  name : String
  price : Nat
deriving DecidableEq

/-- The entity stores backing the numeric-id routes. -/
structure ApiState where
  users : List User
  employees : List Employee
  doctors : List Doctor
  patients : List Patient
  medicines : List Medicine
deriving DecidableEq

/-- Blood group enumeration of the patient schema. -/
def bloodGroups : List String :=
  ["A+", "A-", "B+", "B-", "AB+", "AB-", "O+", "O-"]

/-- Payment status enumeration of the patient schema (default `pending`). -/
def paymentStatuses : List String := ["pending", "paid", "partial"]

/-- Request body of POST `/api/patients`. -/
structure CreatePatientReq where
  userId : Nat
  wardId : Option Nat
  doctorId : Nat
  dateOfAdm : String
  bloodGroup : String
  dob : String
  prescription : Option String
  bedAllocated : Option Nat
  paymentStatus : Option String
  patientProblem : String
deriving DecidableEq

/-- POST `/api/patients`: checks that the referenced user and doctor
exist (404 otherwise), allocates `max id + 1`, and persists.  A schema
validation failure at `Patient.create` (blood-group or payment-status
enum mismatch) is caught by the generic handler as a 500. -/
def createPatient (s : ApiState) (r : CreatePatientReq) : Outcome × ApiState :=
  match s.users.find? (fun u => u.id == r.userId) with
  | none => (.notFound, s)
  | some _ =>
    match s.doctors.find? (fun d => d.id == r.doctorId) with
    | none => (.notFound, s)
    | some _ =>
      let newId := nextIdFrom (s.patients.map (fun p => p.id))
      let ps := r.paymentStatus.getD "pending"
      if bloodGroups.contains r.bloodGroup ∧ paymentStatuses.contains ps then
        (.ok, { s with patients := s.patients ++
          [{ id := newId, userId := r.userId, wardId := r.wardId,
             doctorId := r.doctorId, dateOfAdm := r.dateOfAdm,
             bloodGroup := r.bloodGroup, dob := r.dob,
             prescription := r.prescription, bedAllocated := r.bedAllocated,
             paymentStatus := ps, patientProblem := r.patientProblem }] })
      else (.serverError, s)

/-- DELETE `/api/patients/:id`: 404 when no patient carries the id, else
removes the (single) matching record. -/
def deletePatient (s : ApiState) (pid : Nat) : Outcome × ApiState :=
  match s.patients.find? (fun p => p.id == pid) with
  | none => (.notFound, s)
  | some _ =>
    (.ok, { s with patients := removeFirst (fun p => p.id == pid) s.patients })

/-- Request body of PUT `/api/patients/:id`; `req.body` is passed
wholesale to `findOneAndUpdate`, so every schema field may appear. -/
structure PatientPatch where
  id : Option Nat := none
  userId : Option Nat := none
  wardId : Option Nat := none
  doctorId : Option Nat := none
  dateOfAdm : Option String := none
  bloodGroup : Option String := none
  dob : Option String := none
  prescription : Option String := none
  bedAllocated : Option Nat := none
  paymentStatus : Option String := none
  patientProblem : Option String := none
deriving DecidableEq

/-- The `$set` effect of `findOneAndUpdate(filter, req.body)`: exactly the
fields present in the payload overwrite the stored document. -/
def applyPatientPatch (p : PatientPatch) (pt : Patient) : Patient :=
  { id := p.id.getD pt.id
    userId := p.userId.getD pt.userId
    wardId := match p.wardId with | some w => some w | none => pt.wardId
    doctorId := p.doctorId.getD pt.doctorId
    dateOfAdm := p.dateOfAdm.getD pt.dateOfAdm
    bloodGroup := p.bloodGroup.getD pt.bloodGroup
    dob := p.dob.getD pt.dob
    prescription := match p.prescription with
      | some x => some x
      | none => pt.prescription
    bedAllocated := match p.bedAllocated with
      | some x => some x
      | none => pt.bedAllocated
    paymentStatus := p.paymentStatus.getD pt.paymentStatus
    patientProblem := p.patientProblem.getD pt.patientProblem }

/-- `runValidators` on the update: a payload field that hits the schema
enums must be a member (otherwise mongoose raises and the generic catch
answers 500). -/
def patientPatchValid (p : PatientPatch) : Bool :=
  (match p.bloodGroup with
    | some b => bloodGroups.contains b
    | none => true) &&
  (match p.paymentStatus with
    | some x => paymentStatuses.contains x
    | none => true)

/-- JavaScript truthiness of an optional numeric body field:
absent and `0` are falsy. -/
def jsTruthyNat : Option Nat → Bool
  | none => false
  | some n => n != 0

/-- JavaScript truthiness of an optional string body field:
absent and the empty string are falsy. -/
def jsTruthyStr : Option String → Bool
  | none => false
  | some s => s != ""

/-- PUT `/api/patients/:id`: 404 when the patient id is unknown; when the
payload carries a truthy `doctorId`, 404 when that doctor does not exist;
then `findOneAndUpdate` with the payload (schema validation failures
surfacing as 500). -/
def updatePatient (s : ApiState) (pid : Nat) (p : PatientPatch) :
    Outcome × ApiState :=
  match s.patients.find? (fun q => q.id == pid) with
  | none => (.notFound, s)
  | some _ =>
    if jsTruthyNat p.doctorId &&
        (s.doctors.find? (fun d => p.doctorId == some d.id)).isNone then
      (.notFound, s)
    else if patientPatchValid p then
      (.ok, { s with patients :=
        (updateFirst (fun q => q.id == pid) (applyPatientPatch p) s.patients) })
    else (.serverError, s)

/-- Request body of POST `/api/doctors`. -/
structure CreateDoctorReq where
  empId : Nat
  charges : Nat
deriving DecidableEq

/-- POST `/api/doctors`: 404 when the referenced employee does not exist,
400 "Doctor already exists with this employee ID" (a conflict) when a
doctor already references the `empId`, else allocates `max id + 1` and
persists. -/
def createDoctor (s : ApiState) (r : CreateDoctorReq) : Outcome × ApiState :=
  match s.employees.find? (fun e => e.id == r.empId) with
  | none => (.notFound, s)
  | some _ =>
    if (s.doctors.find? (fun d => d.empId == r.empId)).isSome then
      (.conflict, s)
    else
      (.ok, { s with doctors := s.doctors ++
        [{ id := nextIdFrom (s.doctors.map (fun d => d.id)),
           empId := r.empId, charges := r.charges }] })

/-- DELETE `/api/doctors/:id`: 404 when unknown, else removes the doctor.
No check for patients still referencing the doctor is performed. -/
def deleteDoctor (s : ApiState) (did : Nat) : Outcome × ApiState :=
  match s.doctors.find? (fun d => d.id == did) with
  | none => (.notFound, s)
  | some _ =>
    (.ok, { s with doctors := removeFirst (fun d => d.id == did) s.doctors })

/-- Request body of POST `/api/medicines`. -/
structure CreateMedicineReq where
  name : String
  price : Nat
deriving DecidableEq

/-- POST `/api/medicines`: no duplicate check at all; allocates
`max id + 1` and persists. -/
def createMedicine (s : ApiState) (r : CreateMedicineReq) :
    Outcome × ApiState :=
  (.ok, { s with medicines := s.medicines ++
    [{ id := nextIdFrom (s.medicines.map (fun m => m.id)),
       name := r.name, price := r.price }] })

/-- Registration request body of POST `/api/auth/register`. -/
structure RegisterReq where
  email : String
  password : String
  role : String
deriving DecidableEq

/-- Modelled from the spec: the register handler
(`controllers/authController.js`) is absent from the sources; only its
route declaration and swagger documentation ("400: User already exists or
invalid data") remain.  Per the data model (User `email` unique) and the
testable property that a duplicate unique field yields one success and one
Conflict, registration rejects a duplicate email as a conflict and
otherwise persists a new user under a freshly allocated sequential id. -/
def registerUser (s : ApiState) (r : RegisterReq) : Outcome × ApiState :=
  if (s.users.find? (fun u => u.email == r.email)).isSome then
    (.conflict, s)
  else
    (.ok, { s with users := s.users ++
      [{ id := nextIdFrom (s.users.map (fun u => u.id)),
         email := r.email, role := r.role, password := r.password }] })

/-- Request body for employee creation. -/
structure CreateEmployeeReq where
  userId : Nat
  dob : String
  hireDate : String
  salary : Nat
deriving DecidableEq

/-- Modelled from the spec: the employee-create handler is absent from the
sources (the employees route file actually holds the medicine routes).
Per the data model (Employee references a User 1:1 and `user_id` is
unique) and the testable property on unique fields, creation fails with
NotFound for an unknown user, with Conflict when an employee already
references the user, and otherwise persists under a fresh sequential id. -/
def createEmployee (s : ApiState) (r : CreateEmployeeReq) :
    Outcome × ApiState :=
  match s.users.find? (fun u => u.id == r.userId) with
  | none => (.notFound, s)
  | some _ =>
    if (s.employees.find? (fun e => e.userId == r.userId)).isSome then
      (.conflict, s)
    else
      (.ok, { s with employees := s.employees ++
        [{ id := nextIdFrom (s.employees.map (fun e => e.id)),
           userId := r.userId, dob := r.dob, hireDate := r.hireDate,
           salary := r.salary }] })

/-- Legacy patient record (document-keyed variant): `findById` lookups
address it through its document key. -/
structure LPatient where
  key : Nat
  userId : Nat
  doctorId : Nat
  dateOfAdmission : String
  bloodGroup : String
  prescription : String
  paymentStatus : String
deriving DecidableEq

/-- Legacy doctor record as addressed by `Doctor.findById` in the
doctor-visit route: document key plus the schema fields. -/
structure LDoctor where
  key : Nat
  id : Nat
  empId : Nat
  charges : Nat
deriving DecidableEq

/-- Legacy medicine record as addressed by `Medicine.findById` in the
assignment route: document key plus the schema fields. -/
structure LMedicine where
  key : Nat
  id : Nat
  name : String
  price : Nat
deriving DecidableEq

/-- A stored medicine assignment (`pat_id`, `medicine_id`, prescription,
quantity) with its document key. -/
structure MedAssign where
  key : Nat
  pat_id : Nat
  medicine_id : Nat
  prescription : String
  medicine_qty : Nat
deriving DecidableEq

/-- A stored doctor visit (`pat_id`, `doctor_id`, visit info) with its
document key. -/
structure DVisit where
  key : Nat
  pat_id : Nat
  doctor_id : Nat
  visits : String
deriving DecidableEq

/-- A ward record with its document key.  The schema field `type` is
rendered `wtype` (keyword clash). -/
structure Ward where
  key : Nat
  wtype : String
  charges : Nat
  availability : Bool
  max_cap : Nat
deriving DecidableEq

/-- The entity stores backing the legacy document-keyed routes, together
with the next fresh document key handed out on `save()` of a new
document. -/
structure LegacyState where
  lpatients : List LPatient
  ldoctors : List LDoctor
  lmedicines : List LMedicine
  assignments : List MedAssign
  visits : List DVisit
  wards : List Ward
  nextKey : Nat
deriving DecidableEq

/-- Request body of POST `/api/medicinesassigned`. -/
structure AssignReq where
  pat_id : Nat
  medicine_id : Nat
  prescription : String
  medicine_qty : Nat
deriving DecidableEq

/-- The merge applied to an existing assignment for the same
(pat_id, medicine_id) pair: `medicine_qty += medicine_qty` and
`prescription = prescription` followed by `save()`. -/
def mergeAssign (r : AssignReq) (a : MedAssign) : MedAssign :=
  { a with
    medicine_qty := a.medicine_qty + r.medicine_qty
    prescription := r.prescription }

/-- POST `/api/medicinesassigned`: express-validator body checks first
(400 on an empty prescription; the id and quantity fields are carried as
numbers here, satisfying their presence/numeric checks), then the inline
role check (401 unless doctor/admin/staff), then 404 lookups of the
patient and the medicine, then the merge policy: an existing assignment
for the (pat_id, medicine_id) pair gets its quantity incremented and its
prescription overwritten; otherwise a fresh record is saved. -/
def assignMedicine (s : LegacyState) (role : String) (r : AssignReq) :
    Outcome × LegacyState :=
  if r.prescription = "" then (.badRequest, s)
  else if role ≠ "doctor" ∧ role ≠ "admin" ∧ role ≠ "staff" then
    (.forbidden, s)
  else
    match s.lpatients.find? (fun p => p.key == r.pat_id) with
    | none => (.notFound, s)
    | some _ =>
      match s.lmedicines.find? (fun m => m.key == r.medicine_id) with
      | none => (.notFound, s)
      | some _ =>
        match s.assignments.find?
            (fun a => a.pat_id == r.pat_id && a.medicine_id == r.medicine_id) with
        | some _ =>
          (.ok, { s with assignments :=
            (updateFirst
              (fun a => a.pat_id == r.pat_id && a.medicine_id == r.medicine_id)
              (mergeAssign r)
              s.assignments) })
        | none =>
          (.ok, { s with
            assignments := s.assignments ++
              [{ key := s.nextKey, pat_id := r.pat_id,
                 medicine_id := r.medicine_id, prescription := r.prescription,
                 medicine_qty := r.medicine_qty }],
            nextKey := s.nextKey + 1 })

/-- Request body of POST `/api/doctorvisits`. -/
structure VisitReq where
  pat_id : Nat
  doctor_id : Nat
  visits : String
deriving DecidableEq

/-- POST `/api/doctorvisits`: express-validator body checks (400 on empty
visit info), then 404 lookups of the patient and the doctor, then a 400
"This visit record already exists" conflict on an identical
(pat_id, doctor_id, visits) tuple, else a fresh record is saved.  The
handler performs no role check; the authenticated role is received from
the auth middleware but never read, which the unused parameter mirrors. -/
def recordDoctorVisit (s : LegacyState) (_role : String) (r : VisitReq) :
    Outcome × LegacyState :=
  if r.visits = "" then (.badRequest, s)
  else
    match s.lpatients.find? (fun p => p.key == r.pat_id) with
    | none => (.notFound, s)
    | some _ =>
      match s.ldoctors.find? (fun d => d.key == r.doctor_id) with
      | none => (.notFound, s)
      | some _ =>
        if (s.visits.find? (fun v =>
            v.pat_id == r.pat_id && v.doctor_id == r.doctor_id &&
            v.visits == r.visits)).isSome then
          (.conflict, s)
        else
          (.ok, { s with
            visits := s.visits ++
              [{ key := s.nextKey, pat_id := r.pat_id,
                 doctor_id := r.doctor_id, visits := r.visits }],
            nextKey := s.nextKey + 1 })

/-- Request body of PUT `api/wards/:id` (all fields optional). -/
structure WardPatch where
  wtype : Option String := none
  charges : Option Nat := none
  availability : Option Bool := none
  max_cap : Option Nat := none
deriving DecidableEq

/-- The conditional field updates of the ward update handler:
`if (req.body.type) ...` (truthy), the numeric/boolean fields via
`!== undefined` (presence). -/
def applyWardPatch (p : WardPatch) (w : Ward) : Ward :=
  let w1 := if jsTruthyStr p.wtype then { w with wtype := p.wtype.getD w.wtype }
    else w
  let w2 := match p.charges with
    | some c => { w1 with charges := c }
    | none => w1
  let w3 := match p.availability with
    | some b => { w2 with availability := b }
    | none => w2
  match p.max_cap with
  | some m => { w3 with max_cap := m }
  | none => w3

/-- PUT `api/wards/:id`: express-validator optional checks (a present but
empty ward type is a 400), the inline admin check (401), a 404 lookup,
then the conditional field updates on the fetched document. -/
def updateWard (s : LegacyState) (role : String) (wid : Nat) (p : WardPatch) :
    Outcome × LegacyState :=
  if p.wtype = some "" then (.badRequest, s)
  else if role ≠ "admin" then (.forbidden, s)
  else
    match s.wards.find? (fun w => w.key == wid) with
    | none => (.notFound, s)
    | some _ =>
      (.ok, { s with wards :=
        (updateFirst (fun w => w.key == wid) (applyWardPatch p) s.wards) })

/-- Request body of PUT `/api/medicinesassigned/:id` (both fields
optional). -/
structure AssignPatch where
  prescription : Option String := none
  medicine_qty : Option Nat := none
deriving DecidableEq

/-- The conditional field updates of the assignment update handler:
`if (req.body.prescription) ...` (truthy), quantity via `!== undefined`. -/
def applyAssignPatch (p : AssignPatch) (a : MedAssign) : MedAssign :=
  let a1 := if jsTruthyStr p.prescription then
      { a with prescription := p.prescription.getD a.prescription }
    else a
  match p.medicine_qty with
  | some q => { a1 with medicine_qty := q }
  | none => a1

/-- PUT `/api/medicinesassigned/:id`: express-validator optional checks
(a present but empty prescription is a 400), the inline role check (401
unless doctor/admin/staff), a 404 lookup by document key, then the
conditional field updates on the fetched document. -/
def updateMedicineAssigned (s : LegacyState) (role : String) (aid : Nat)
    (p : AssignPatch) : Outcome × LegacyState :=
  if p.prescription = some "" then (.badRequest, s)
  else if role ≠ "doctor" ∧ role ≠ "admin" ∧ role ≠ "staff" then
    (.forbidden, s)
  else
    match s.assignments.find? (fun a => a.key == aid) with
    | none => (.notFound, s)
    | some _ =>
      (.ok, { s with assignments :=
        (updateFirst (fun a => a.key == aid) (applyAssignPatch p) s.assignments) })

/-- The referential-integrity predicate on the numeric-id stores: every
stored patient's `doctorId` names an existing doctor. -/
def patientRefsOk (s : ApiState) : Bool :=
  s.patients.all (fun p => s.doctors.any (fun d => d.id == p.doctorId))

theorem find?_of_filter_singleton {α} {p : α → Bool} {l : List α} {a : α}
    (h : l.filter p = [a]) : l.find? p = some a := by
  induction l with
  | nil => cases h
  | cons x xs ih =>
    cases hx : p x with
    | true =>
      rw [List.filter_cons_of_pos hx] at h
      rw [List.find?_cons_of_pos _ hx]
      exact congrArg some (List.head_eq_of_cons_eq h)
    | false =>
      rw [List.filter_cons_of_neg (by simp [hx])] at h
      rw [List.find?_cons_of_neg _ (by simp [hx])]
      exact ih h

theorem filter_updateFirst_singleton {α} {p : α → Bool} {f : α → α}
    {l : List α} {a : α} (hpf : ∀ x, p x = true → p (f x) = true)
    (h : l.filter p = [a]) :
    (updateFirst p f l).filter p = [f a] := by
  induction l with
  | nil => cases h
  | cons x xs ih =>
    cases hx : p x with
    | true =>
      rw [List.filter_cons_of_pos hx] at h
      have hxa : x = a := List.head_eq_of_cons_eq h
      have hnil : xs.filter p = [] := List.tail_eq_of_cons_eq h
      rw [updateFirst, if_pos hx, List.filter_cons_of_pos (hpf x hx), hnil, hxa]
    | false =>
      rw [List.filter_cons_of_neg (by simp [hx])] at h
      rw [updateFirst, if_neg (by simp [hx]),
        List.filter_cons_of_neg (by simp [hx])]
      exact ih h

theorem mem_updateFirst {α} {p : α → Bool} {f : α → α} {l : List α} {x : α}
    (h : x ∈ updateFirst p f l) :
    x ∈ l ∨ ∃ y, y ∈ l ∧ p y = true ∧ x = f y := by
  induction l with
  | nil => cases h
  | cons z zs ih =>
    rw [updateFirst] at h
    by_cases hz : p z
    · rw [if_pos hz] at h
      rcases List.mem_cons.mp h with rfl | h
      · exact Or.inr ⟨z, List.mem_cons_self z zs, hz, rfl⟩
      · exact Or.inl (List.mem_cons_of_mem z h)
    · rw [if_neg hz] at h
      rcases List.mem_cons.mp h with rfl | h
      · exact Or.inl (List.mem_cons_self x zs)
      · rcases ih h with h | ⟨y, hy, hpy, hxy⟩
        · exact Or.inl (List.mem_cons_of_mem z h)
        · exact Or.inr ⟨y, List.mem_cons_of_mem z hy, hpy, hxy⟩

theorem find?_append_of_none {α} {p : α → Bool} {l₁ : List α} (l₂ : List α)
    (h : l₁.find? p = none) : (l₁ ++ l₂).find? p = l₂.find? p := by
  induction l₁ with
  | nil => rfl
  | cons x xs ih =>
    cases hx : p x with
    | true => rw [List.find?_cons_of_pos _ hx] at h; cases h
    | false =>
      rw [List.find?_cons_of_neg _ (by simp [hx])] at h
      rw [List.cons_append, List.find?_cons_of_neg _ (by simp [hx])]
      exact ih h

theorem find?_eq_none_of_filter_nil {α} {p : α → Bool} {l : List α}
    (h : l.filter p = []) : l.find? p = none := by
  rw [List.find?_eq_none]
  intro x hx
  have := List.filter_eq_nil_iff.mp h x hx
  simpa using this

/-- A create-patient request used to exercise `createPatient` against an
empty store. -/
def c4Req : CreatePatientReq :=
  { userId := 1, wardId := none, doctorId := 1, dateOfAdm := "2024-01-02",
    bloodGroup := "A+", dob := "1990-03-04", prescription := none,
    bedAllocated := none, paymentStatus := none, patientProblem := "flu" }

/-- Claim C4: whenever the create-patient request references a doctor id
with no matching doctor (and likewise a user id with no matching user),
the operation answers NotFound and the state — in particular the patient
store — is left completely unchanged: nothing is inserted and no id is
consumed. -/
theorem createPatient_missing_ref_is_notFound
    (s : ApiState) (r : CreatePatientReq)
    (h : s.users.find? (fun u => u.id == r.userId) = none ∨
      s.doctors.find? (fun d => d.id == r.doctorId) = none) :
    (createPatient s r).1 = .notFound ∧ (createPatient s r).2 = s := by
  cases hu : s.users.find? (fun u => u.id == r.userId) with
  | none => simp [createPatient, hu]
  | some u =>
    rcases h with h | h
    · rw [hu] at h; cases h
    · simp [createPatient, hu, h]

/-- Claim C4 witness: on the empty store the request referencing user 1
and doctor 1 is rejected with NotFound and the store stays empty. -/
theorem createPatient_missing_ref_is_notFound_witness :
    (createPatient ⟨[], [], [], [], []⟩ c4Req).1 = .notFound ∧
    (createPatient ⟨[], [], [], [], []⟩ c4Req).2 = ⟨[], [], [], [], []⟩ :=
  createPatient_missing_ref_is_notFound ⟨[], [], [], [], []⟩ c4Req (Or.inl rfl)

/-- Claim C2: the sequential id allocator returns 1 on an empty store and
otherwise the maximum stored id plus one; a store whose maximum id is 5
yields 6 next, however its records are ordered; and the create handlers
for Patient, Doctor and Medicine assign exactly this id to the record they
persist. -/
theorem sequential_id_allocation :
    nextIdFrom [] = 1 ∧
    (∀ (ids : List Nat) (m : Nat), maxId? ids = some m →
      nextIdFrom ids = m + 1) ∧
    (∀ ids : List Nat, 5 ∈ ids → (∀ i ∈ ids, i ≤ 5) → nextIdFrom ids = 6) ∧
    (∀ (s : ApiState) (r : CreatePatientReq), (createPatient s r).1 = .ok →
      ∃ p, (createPatient s r).2.patients = s.patients ++ [p] ∧
        p.id = nextIdFrom (s.patients.map (fun q => q.id))) ∧
    (∀ (s : ApiState) (r : CreateDoctorReq), (createDoctor s r).1 = .ok →
      ∃ d, (createDoctor s r).2.doctors = s.doctors ++ [d] ∧
        d.id = nextIdFrom (s.doctors.map (fun q => q.id))) ∧
    (∀ (s : ApiState) (r : CreateMedicineReq),
      ∃ m, (createMedicine s r).2.medicines = s.medicines ++ [m] ∧
        m.id = nextIdFrom (s.medicines.map (fun q => q.id))) := by
  refine ⟨rfl, ?_, ?_, ?_, ?_, ?_⟩
  · intro ids m h
    simp [nextIdFrom, h]
  · intro ids h5 hub
    have h : maxId? ids = some 5 := maxId?_eq_some h5 hub
    simp [nextIdFrom, h]
  · intro s r h
    cases hu : s.users.find? (fun u => u.id == r.userId) with
    | none => simp [createPatient, hu] at h
    | some u =>
      cases hd : s.doctors.find? (fun d => d.id == r.doctorId) with
      | none => simp [createPatient, hu, hd] at h
      | some d =>
        by_cases hv : r.bloodGroup ∈ bloodGroups ∧
            r.paymentStatus.getD "pending" ∈ paymentStatuses
        · refine
            ⟨{ id := nextIdFrom (s.patients.map (fun q => q.id)),
               userId := r.userId, wardId := r.wardId, doctorId := r.doctorId,
               dateOfAdm := r.dateOfAdm, bloodGroup := r.bloodGroup,
               dob := r.dob, prescription := r.prescription,
               bedAllocated := r.bedAllocated,
               paymentStatus := r.paymentStatus.getD "pending",
               patientProblem := r.patientProblem }, ?_, rfl⟩
          simp [createPatient, hu, hd, hv]
        · simp [createPatient, hu, hd, hv] at h
  · intro s r h
    cases he : s.employees.find? (fun e => e.id == r.empId) with
    | none => simp [createDoctor, he] at h
    | some e =>
      cases hd : s.doctors.find? (fun d => d.empId == r.empId) with
      | none =>
        refine
          ⟨{ id := nextIdFrom (s.doctors.map (fun q => q.id)),
             empId := r.empId, charges := r.charges }, ?_, rfl⟩
        simp [createDoctor, he, hd]
      | some d => simp [createDoctor, he, hd] at h
  · intro s r
    exact ⟨_, rfl, rfl⟩

/-- Claim C2 witness: on ids 2, 5, 3 — maximum 5, in scrambled order —
the allocator returns 6. -/
theorem sequential_id_allocation_witness : nextIdFrom [2, 5, 3] = 6 :=
  sequential_id_allocation.2.2.1 [2, 5, 3] (by decide) (by decide)

/-- Claim C1: when the store holds exactly one assignment for the
(pat_id, medicine_id) pair, an authorised, well-formed Assign Medicine
call for the same pair succeeds, leaves exactly one stored assignment for
the pair, sums the quantities and overwrites the prescription with the new
text. -/
theorem assignMedicine_merges_existing_pair
    (s : LegacyState) (role : String) (r : AssignReq) (ex : MedAssign)
    (hval : r.prescription ≠ "")
    (hrole : role = "doctor" ∨ role = "admin" ∨ role = "staff")
    (hpat : (s.lpatients.find? (fun p => p.key == r.pat_id)).isSome = true)
    (hmed : (s.lmedicines.find? (fun m => m.key == r.medicine_id)).isSome = true)
    (hex : s.assignments.filter
      (fun a => a.pat_id == r.pat_id && a.medicine_id == r.medicine_id) = [ex]) :
    (assignMedicine s role r).1 = .ok ∧
    (assignMedicine s role r).2.assignments.filter
      (fun a => a.pat_id == r.pat_id && a.medicine_id == r.medicine_id) =
      [mergeAssign r ex] := by
  have hrole' : ¬(role ≠ "doctor" ∧ role ≠ "admin" ∧ role ≠ "staff") := by
    rcases hrole with h | h | h <;> simp [h]
  obtain ⟨p, hp⟩ := Option.isSome_iff_exists.mp hpat
  obtain ⟨m, hm⟩ := Option.isSome_iff_exists.mp hmed
  have hfind := find?_of_filter_singleton hex
  have hfilter := @filter_updateFirst_singleton _
    (fun a => a.pat_id == r.pat_id && a.medicine_id == r.medicine_id)
    (mergeAssign r) s.assignments ex (fun x hx => hx) hex
  constructor
  · simp [assignMedicine, hval, hrole', hp, hm, hfind]
  · simp only [assignMedicine, if_neg hval, if_neg hrole', hp, hm, hfind]
    exact hfilter

/-- A legacy store holding one patient (key 1), one medicine (key 2) and
one assignment of that medicine to that patient with quantity 3. -/
def c1State : LegacyState where
  lpatients := [{ key := 1, userId := 1, doctorId := 1,
                  dateOfAdmission := "2024-01-02", bloodGroup := "A+",
                  prescription := "", paymentStatus := "Paid" }]
  ldoctors := []
  lmedicines := [{ key := 2, id := 1, name := "ibuprofen", price := 5 }]
  assignments := [{ key := 7, pat_id := 1, medicine_id := 2,
                    prescription := "before food", medicine_qty := 3 }]
  visits := []
  wards := []
  nextKey := 8

/-- The second assignment of medicine 2 to patient 1, with quantity 4. -/
def c1Req : AssignReq :=
  { pat_id := 1, medicine_id := 2, prescription := "after food",
    medicine_qty := 4 }

/-- Claim C1 witness: with quantity 3 stored, assigning quantity 4 leaves
one assignment for the pair with quantity 7 and the new prescription. -/
theorem assignMedicine_merges_existing_pair_witness :
    (assignMedicine c1State "doctor" c1Req).1 = .ok ∧
    (assignMedicine c1State "doctor" c1Req).2.assignments.filter
      (fun a => a.pat_id == c1Req.pat_id && a.medicine_id == c1Req.medicine_id) =
      [⟨7, 1, 2, "after food", 7⟩] := by
  have h := assignMedicine_merges_existing_pair c1State "doctor" c1Req
    ⟨7, 1, 2, "before food", 3⟩
    (by decide) (Or.inl rfl) (by decide) (by decide) (by decide)
  simpa [mergeAssign] using h

/-- Claim C3: a well-formed Record Doctor Visit request answers NotFound
when the referenced patient (or, with the patient present, the doctor) is
missing, Conflict — storing nothing — when an identical
(pat_id, doctor_id, visits) tuple is already stored, and otherwise
succeeds; submitting the same tuple twice therefore stores exactly one
visit and the second call answers Conflict leaving the state unchanged. -/
theorem recordDoctorVisit_spec (s : LegacyState) (role : String)
    (r : VisitReq) (hval : r.visits ≠ "") :
    (s.lpatients.find? (fun p => p.key == r.pat_id) = none →
      recordDoctorVisit s role r = (.notFound, s)) ∧
    ((s.lpatients.find? (fun p => p.key == r.pat_id)).isSome = true →
      s.ldoctors.find? (fun d => d.key == r.doctor_id) = none →
      recordDoctorVisit s role r = (.notFound, s)) ∧
    ((s.lpatients.find? (fun p => p.key == r.pat_id)).isSome = true →
      (s.ldoctors.find? (fun d => d.key == r.doctor_id)).isSome = true →
      (s.visits.find? (fun v => v.pat_id == r.pat_id &&
        v.doctor_id == r.doctor_id && v.visits == r.visits)).isSome = true →
      recordDoctorVisit s role r = (.conflict, s)) ∧
    ((s.lpatients.find? (fun p => p.key == r.pat_id)).isSome = true →
      (s.ldoctors.find? (fun d => d.key == r.doctor_id)).isSome = true →
      s.visits.filter (fun v => v.pat_id == r.pat_id &&
        v.doctor_id == r.doctor_id && v.visits == r.visits) = [] →
      (recordDoctorVisit s role r).1 = .ok ∧
      ((recordDoctorVisit s role r).2.visits.filter
        (fun v => v.pat_id == r.pat_id && v.doctor_id == r.doctor_id &&
          v.visits == r.visits)).length = 1 ∧
      recordDoctorVisit (recordDoctorVisit s role r).2 role r =
        (.conflict, (recordDoctorVisit s role r).2)) := by
  refine ⟨?_, ?_, ?_, ?_⟩
  · intro hp
    simp [recordDoctorVisit, hval, hp]
  · intro hp hd
    obtain ⟨p, hp'⟩ := Option.isSome_iff_exists.mp hp
    simp [recordDoctorVisit, hval, hp', hd]
  · intro hp hd hdup
    obtain ⟨p, hp'⟩ := Option.isSome_iff_exists.mp hp
    obtain ⟨d, hd'⟩ := Option.isSome_iff_exists.mp hd
    simp [recordDoctorVisit, hval, hp', hd', hdup]
  · intro hp hd hdup
    obtain ⟨p, hp'⟩ := Option.isSome_iff_exists.mp hp
    obtain ⟨d, hd'⟩ := Option.isSome_iff_exists.mp hd
    have hnone : s.visits.find? (fun v => v.pat_id == r.pat_id &&
        v.doctor_id == r.doctor_id && v.visits == r.visits) = none :=
      find?_eq_none_of_filter_nil hdup
    refine ⟨?_, ?_, ?_⟩
    · simp [recordDoctorVisit, hval, hp', hd', hnone]
    · simp [recordDoctorVisit, hval, hp', hd', hnone, List.filter_append, hdup]
    · have hstate : (recordDoctorVisit s role r).2 =
          { s with
            visits := s.visits ++ [{ key := s.nextKey, pat_id := r.pat_id,
                                     doctor_id := r.doctor_id,
                                     visits := r.visits }],
            nextKey := s.nextKey + 1 } := by
        simp [recordDoctorVisit, hval, hp', hd', hnone]
      rw [hstate]
      have hfind2 : List.find?
          (fun v : DVisit => v.pat_id == r.pat_id && v.doctor_id == r.doctor_id &&
            v.visits == r.visits)
          (s.visits ++ [⟨s.nextKey, r.pat_id, r.doctor_id, r.visits⟩]) =
          some ⟨s.nextKey, r.pat_id, r.doctor_id, r.visits⟩ := by
        rw [find?_append_of_none _ hnone]
        simp
      simp [recordDoctorVisit, hval, hp', hd', hfind2]

/-- A legacy store holding one patient (key 1) and one doctor (key 1) and
no visit records. -/
def c3State : LegacyState where
  lpatients := [{ key := 1, userId := 1, doctorId := 1,
                  dateOfAdmission := "2024-01-02", bloodGroup := "A+",
                  prescription := "", paymentStatus := "Paid" }]
  ldoctors := [{ key := 1, id := 1, empId := 1, charges := 100 }]
  lmedicines := []
  assignments := []
  visits := []
  wards := []
  nextKey := 5

/-- The visit record request used twice in the claim C3 witness. -/
def c3Req : VisitReq := { pat_id := 1, doctor_id := 1, visits := "2024-05-01" }

/-- Claim C3 witness: on the concrete store the first submission succeeds
and stores exactly one visit with the tuple, and resubmitting the
identical tuple answers Conflict without changing the state. -/
theorem recordDoctorVisit_spec_witness :
    (recordDoctorVisit c3State "doctor" c3Req).1 = .ok ∧
    ((recordDoctorVisit c3State "doctor" c3Req).2.visits.filter
      (fun v => v.pat_id == c3Req.pat_id && v.doctor_id == c3Req.doctor_id &&
        v.visits == c3Req.visits)).length = 1 ∧
    recordDoctorVisit (recordDoctorVisit c3State "doctor" c3Req).2 "doctor"
      c3Req = (.conflict, (recordDoctorVisit c3State "doctor" c3Req).2) :=
  (recordDoctorVisit_spec c3State "doctor" c3Req (by decide)).2.2.2
    (by decide) (by decide) (by decide)

/-- Claim C5: for each entity type with a declared unique key that a
create request can carry — Doctor `empId` (checked by the route), User
`email` and Employee `userId` (handlers modelled from the spec, their code
being absent from the sources) — two creates with the same key value give
exactly one success and one Conflict, with the state unchanged by the
rejected call; the remaining unique fields are the allocator-assigned
`id`s, which a request cannot carry, and two sequential Medicine creates
always receive distinct ids, so no duplicate-id insert can be issued. -/
theorem unique_key_conflict_behaviour :
    (∀ (s : ApiState) (r : CreateDoctorReq),
      (s.employees.find? (fun e => e.id == r.empId)).isSome = true →
      s.doctors.find? (fun d => d.empId == r.empId) = none →
      (createDoctor s r).1 = .ok ∧
      createDoctor (createDoctor s r).2 r = (.conflict, (createDoctor s r).2)) ∧
    (∀ (s : ApiState) (r : RegisterReq),
      s.users.find? (fun u => u.email == r.email) = none →
      (registerUser s r).1 = .ok ∧
      registerUser (registerUser s r).2 r =
        (.conflict, (registerUser s r).2)) ∧
    (∀ (s : ApiState) (r : CreateEmployeeReq),
      (s.users.find? (fun u => u.id == r.userId)).isSome = true →
      s.employees.find? (fun e => e.userId == r.userId) = none →
      (createEmployee s r).1 = .ok ∧
      createEmployee (createEmployee s r).2 r =
        (.conflict, (createEmployee s r).2)) ∧
    (∀ (s : ApiState) (r r' : CreateMedicineReq),
      (createMedicine s r).1 = .ok ∧
      ∃ m m', (createMedicine s r).2.medicines = s.medicines ++ [m] ∧
        (createMedicine (createMedicine s r).2 r').2.medicines =
          s.medicines ++ [m, m'] ∧ m.id ≠ m'.id) := by
  refine ⟨?_, ?_, ?_, ?_⟩
  · intro s r he hd
    obtain ⟨e, he'⟩ := Option.isSome_iff_exists.mp he
    have h1 : (createDoctor s r).2 = { s with doctors := s.doctors ++
        [⟨nextIdFrom (s.doctors.map (fun q => q.id)), r.empId, r.charges⟩] } := by
      simp [createDoctor, he', hd]
    refine ⟨by simp [createDoctor, he', hd], ?_⟩
    rw [h1]
    have hfind2 : List.find? (fun d : Doctor => d.empId == r.empId)
        (s.doctors ++ [⟨nextIdFrom (s.doctors.map (fun q => q.id)),
          r.empId, r.charges⟩]) =
        some ⟨nextIdFrom (s.doctors.map (fun q => q.id)), r.empId,
          r.charges⟩ := by
      rw [find?_append_of_none _ hd]
      simp
    simp [createDoctor, he', hfind2]
  · intro s r hu
    have h1 : (registerUser s r).2 = { s with users := s.users ++
        [⟨nextIdFrom (s.users.map (fun q => q.id)), r.email, r.role,
          r.password⟩] } := by
      simp [registerUser, hu]
    refine ⟨by simp [registerUser, hu], ?_⟩
    rw [h1]
    have hfind2 : List.find? (fun u : User => u.email == r.email)
        (s.users ++ [⟨nextIdFrom (s.users.map (fun q => q.id)), r.email,
          r.role, r.password⟩]) =
        some ⟨nextIdFrom (s.users.map (fun q => q.id)), r.email, r.role,
          r.password⟩ := by
      rw [find?_append_of_none _ hu]
      simp
    simp [registerUser, hfind2]
  · intro s r hu he
    obtain ⟨u, hu'⟩ := Option.isSome_iff_exists.mp hu
    have h1 : (createEmployee s r).2 = { s with employees := s.employees ++
        [⟨nextIdFrom (s.employees.map (fun q => q.id)), r.userId, r.dob,
          r.hireDate, r.salary⟩] } := by
      simp [createEmployee, hu', he]
    refine ⟨by simp [createEmployee, hu', he], ?_⟩
    rw [h1]
    have hfind2 : List.find? (fun e : Employee => e.userId == r.userId)
        (s.employees ++ [⟨nextIdFrom (s.employees.map (fun q => q.id)),
          r.userId, r.dob, r.hireDate, r.salary⟩]) =
        some ⟨nextIdFrom (s.employees.map (fun q => q.id)), r.userId, r.dob,
          r.hireDate, r.salary⟩ := by
      rw [find?_append_of_none _ he]
      simp
    simp [createEmployee, hu', hfind2]
  · intro s r r'
    refine ⟨rfl,
      ⟨nextIdFrom (s.medicines.map (fun q => q.id)), r.name, r.price⟩,
      ⟨nextIdFrom (s.medicines.map (fun q => q.id) ++
        [nextIdFrom (s.medicines.map (fun q => q.id))]), r'.name, r'.price⟩,
      rfl, ?_, ?_⟩
    · simp [createMedicine, List.append_assoc]
    · show nextIdFrom (s.medicines.map (fun q => q.id)) ≠
        nextIdFrom (s.medicines.map (fun q => q.id) ++
          [nextIdFrom (s.medicines.map (fun q => q.id))])
      rw [nextIdFrom_append_nextId (s.medicines.map (fun q => q.id))]
      omega

/-- Claim C5 witness: with employee 1 stored and no doctors, creating a
doctor for empId 1 twice gives one success and one Conflict, the second
call leaving the store unchanged. -/
theorem unique_key_conflict_behaviour_witness :
    (createDoctor ⟨[], [⟨1, 1, "1990-01-01", "2020-01-01", 1000⟩], [], [], []⟩
      ⟨1, 100⟩).1 = .ok ∧
    createDoctor (createDoctor
        ⟨[], [⟨1, 1, "1990-01-01", "2020-01-01", 1000⟩], [], [], []⟩
        ⟨1, 100⟩).2 ⟨1, 100⟩ =
      (.conflict, (createDoctor
        ⟨[], [⟨1, 1, "1990-01-01", "2020-01-01", 1000⟩], [], [], []⟩
        ⟨1, 100⟩).2) :=
  unique_key_conflict_behaviour.1
    ⟨[], [⟨1, 1, "1990-01-01", "2020-01-01", 1000⟩], [], [], []⟩ ⟨1, 100⟩
    (by decide) (by decide)

/-- A store with one user (id 1) and one doctor (id 1) and no patients,
used for the id-reuse scenario. -/
def c6State : ApiState :=
  ⟨[⟨1, "alice@example.com", "patient", "pw"⟩], [], [⟨1, 1, 100⟩], [], []⟩

/-- Admission request for user 1 under doctor 1. -/
def c6Req : CreatePatientReq :=
  { userId := 1, wardId := none, doctorId := 1, dateOfAdm := "2024-01-02",
    bloodGroup := "A+", dob := "1990-03-04", prescription := none,
    bedAllocated := none, paymentStatus := none, patientProblem := "flu" }

/-- Claim C6 counterexample: creating a patient assigns id 1; deleting it
and creating again reassigns the same id 1, so a deleted patient's id is
reused by a later-created record. -/
theorem patient_id_reuse_after_delete :
    (createPatient c6State c6Req).1 = .ok ∧
    (createPatient c6State c6Req).2.patients.map (fun p => p.id) = [1] ∧
    (deletePatient (createPatient c6State c6Req).2 1).1 = .ok ∧
    (deletePatient (createPatient c6State c6Req).2 1).2.patients = [] ∧
    (createPatient (deletePatient (createPatient c6State c6Req).2 1).2
      c6Req).2.patients.map (fun p => p.id) = [1] := by
  decide

/-- Claim C6 (amended): a successful create of a Patient, Doctor, Medicine
or Employee always assigns an id different from the id of every record of
that type currently stored; ids of deleted records, however, may be
reallocated (the allocator reads only the current maximum). -/
theorem created_id_fresh_among_stored :
    (∀ (s : ApiState) (r : CreatePatientReq), (createPatient s r).1 = .ok →
      ∃ p, (createPatient s r).2.patients = s.patients ++ [p] ∧
        ∀ q ∈ s.patients, q.id ≠ p.id) ∧
    (∀ (s : ApiState) (r : CreateDoctorReq), (createDoctor s r).1 = .ok →
      ∃ d, (createDoctor s r).2.doctors = s.doctors ++ [d] ∧
        ∀ q ∈ s.doctors, q.id ≠ d.id) ∧
    (∀ (s : ApiState) (r : CreateMedicineReq),
      ∃ m, (createMedicine s r).2.medicines = s.medicines ++ [m] ∧
        ∀ q ∈ s.medicines, q.id ≠ m.id) ∧
    (∀ (s : ApiState) (r : CreateEmployeeReq), (createEmployee s r).1 = .ok →
      ∃ e, (createEmployee s r).2.employees = s.employees ++ [e] ∧
        ∀ q ∈ s.employees, q.id ≠ e.id) := by
  refine ⟨?_, ?_, ?_, ?_⟩
  · intro s r h
    cases hu : s.users.find? (fun u => u.id == r.userId) with
    | none => simp [createPatient, hu] at h
    | some u =>
      cases hd : s.doctors.find? (fun d => d.id == r.doctorId) with
      | none => simp [createPatient, hu, hd] at h
      | some d =>
        by_cases hv : r.bloodGroup ∈ bloodGroups ∧
            r.paymentStatus.getD "pending" ∈ paymentStatuses
        · refine
            ⟨{ id := nextIdFrom (s.patients.map (fun q => q.id)),
               userId := r.userId, wardId := r.wardId, doctorId := r.doctorId,
               dateOfAdm := r.dateOfAdm, bloodGroup := r.bloodGroup,
               dob := r.dob, prescription := r.prescription,
               bedAllocated := r.bedAllocated,
               paymentStatus := r.paymentStatus.getD "pending",
               patientProblem := r.patientProblem }, ?_, ?_⟩
          · simp [createPatient, hu, hd, hv]
          · intro q hq
            exact Nat.ne_of_lt
              (lt_nextIdFrom_of_mem (List.mem_map_of_mem _ hq))
        · simp [createPatient, hu, hd, hv] at h
  · intro s r h
    cases he : s.employees.find? (fun e => e.id == r.empId) with
    | none => simp [createDoctor, he] at h
    | some e =>
      cases hd : s.doctors.find? (fun d => d.empId == r.empId) with
      | none =>
        refine
          ⟨{ id := nextIdFrom (s.doctors.map (fun q => q.id)),
             empId := r.empId, charges := r.charges }, ?_, ?_⟩
        · simp [createDoctor, he, hd]
        · intro q hq
          exact Nat.ne_of_lt (lt_nextIdFrom_of_mem (List.mem_map_of_mem _ hq))
      | some d => simp [createDoctor, he, hd] at h
  · intro s r
    refine
      ⟨{ id := nextIdFrom (s.medicines.map (fun q => q.id)),
         name := r.name, price := r.price }, rfl, ?_⟩
    intro q hq
    exact Nat.ne_of_lt (lt_nextIdFrom_of_mem (List.mem_map_of_mem _ hq))
  · intro s r h
    cases hu : s.users.find? (fun u => u.id == r.userId) with
    | none => simp [createEmployee, hu] at h
    | some u =>
      cases he : s.employees.find? (fun e => e.userId == r.userId) with
      | none =>
        refine
          ⟨{ id := nextIdFrom (s.employees.map (fun q => q.id)),
             userId := r.userId, dob := r.dob, hireDate := r.hireDate,
             salary := r.salary }, ?_, ?_⟩
        · simp [createEmployee, hu, he]
        · intro q hq
          exact Nat.ne_of_lt (lt_nextIdFrom_of_mem (List.mem_map_of_mem _ hq))
      | some e => simp [createEmployee, hu, he] at h

/-- Claim C6 (amended) witness: on the concrete store the created patient
record's id differs from every stored patient id. -/
theorem created_id_fresh_among_stored_witness :
    ∃ p, (createPatient c6State c6Req).2.patients = c6State.patients ++ [p] ∧
      ∀ q ∈ c6State.patients, q.id ≠ p.id :=
  created_id_fresh_among_stored.1 c6State c6Req (by decide)

/-- A store with doctor 1 and a patient whose doctorId references
doctor 1. -/
def c7State : ApiState :=
  ⟨[], [], [⟨1, 1, 100⟩],
   [⟨1, 1, none, 1, "2024-01-02", "A+", "1990-03-04", none, none,
     "pending", "flu"⟩], []⟩

/-- Admission request for user 1 under doctor 1 against `c7State`
(augmented with a user where needed). -/
def c7Req : CreatePatientReq :=
  { userId := 1, wardId := none, doctorId := 1, dateOfAdm := "2024-02-03",
    bloodGroup := "B+", dob := "1991-05-06", prescription := none,
    bedAllocated := none, paymentStatus := none,
    patientProblem := "checkup" }

/-- Claim C7 counterexample: the referential-integrity invariant holds of
`c7State`, yet deleting doctor 1 succeeds and leaves a patient whose
doctorId references no stored doctor — Delete Doctor performs no
referencing-patient check. -/
theorem deleteDoctor_breaks_patient_refs :
    patientRefsOk c7State = true ∧
    (deleteDoctor c7State 1).1 = .ok ∧
    patientRefsOk (deleteDoctor c7State 1).2 = false := by
  decide

/-- Bridge between the Boolean invariant and its propositional form. -/
theorem patientRefsOk_iff (s : ApiState) :
    patientRefsOk s = true ↔
      ∀ p ∈ s.patients, ∃ d ∈ s.doctors, d.id = p.doctorId := by
  simp [patientRefsOk, List.all_eq_true, List.any_eq_true]

/-- Claim C7 (amended): Create Patient always preserves the
referential-integrity invariant, and Update Patient preserves it whenever
the payload's doctorId is absent or a nonzero id (a doctorId of 0 is
falsy in the handler, skipping the existence check); Delete Doctor,
however, performs no referencing-patient check and can break the
invariant. -/
theorem patient_ref_integrity_preservation
    (s : ApiState) (r : CreatePatientReq) (pid : Nat) (pch : PatientPatch)
    (hinv : patientRefsOk s = true)
    (hdoc : pch.doctorId = none ∨ ∃ n, pch.doctorId = some n ∧ n ≠ 0) :
    patientRefsOk (createPatient s r).2 = true ∧
    patientRefsOk (updatePatient s pid pch).2 = true := by
  have hinv' := (patientRefsOk_iff s).mp hinv
  constructor
  · cases hu : s.users.find? (fun u => u.id == r.userId) with
    | none => simpa [createPatient, hu] using hinv
    | some u =>
      cases hd : s.doctors.find? (fun d => d.id == r.doctorId) with
      | none => simpa [createPatient, hu, hd] using hinv
      | some d =>
        by_cases hv : r.bloodGroup ∈ bloodGroups ∧
            r.paymentStatus.getD "pending" ∈ paymentStatuses
        · have hmem : d ∈ s.doctors := List.mem_of_find?_eq_some hd
          have hdid : d.id = r.doctorId := by
            have := List.find?_some hd
            simpa using this
          rw [patientRefsOk_iff]
          intro p hp
          have hps : (createPatient s r).2.patients = s.patients ++
              [{ id := nextIdFrom (s.patients.map (fun q => q.id)),
                 userId := r.userId, wardId := r.wardId,
                 doctorId := r.doctorId, dateOfAdm := r.dateOfAdm,
                 bloodGroup := r.bloodGroup, dob := r.dob,
                 prescription := r.prescription,
                 bedAllocated := r.bedAllocated,
                 paymentStatus := r.paymentStatus.getD "pending",
                 patientProblem := r.patientProblem }] := by
            simp [createPatient, hu, hd, hv]
          have hds : (createPatient s r).2.doctors = s.doctors := by
            simp [createPatient, hu, hd, hv]
          rw [hps] at hp
          rw [hds]
          rcases List.mem_append.mp hp with hp | hp
          · exact hinv' p hp
          · rw [List.mem_singleton.mp hp]
            exact ⟨d, hmem, hdid⟩
        · simpa [createPatient, hu, hd, hv] using hinv
  · cases hp : s.patients.find? (fun q => q.id == pid) with
    | none => simpa [updatePatient, hp] using hinv
    | some p0 =>
      cases hcond : jsTruthyNat pch.doctorId &&
          (s.doctors.find? (fun d => pch.doctorId == some d.id)).isNone with
      | true => simpa [updatePatient, hp, hcond] using hinv
      | false =>
        cases hvv : patientPatchValid pch with
        | false => simpa [updatePatient, hp, hcond, hvv] using hinv
        | true =>
          have hps : (updatePatient s pid pch).2.patients =
              updateFirst (fun q => q.id == pid) (applyPatientPatch pch)
                s.patients := by
            simp [updatePatient, hp, hcond, hvv]
          have hds : (updatePatient s pid pch).2.doctors = s.doctors := by
            simp [updatePatient, hp, hcond, hvv]
          rw [patientRefsOk_iff, hps, hds]
          intro q hq
          rcases mem_updateFirst hq with hq | ⟨y, hy, _, rfl⟩
          · exact hinv' q hq
          · rcases hdoc with hnone | ⟨n, hsome, hn0⟩
            · have : (applyPatientPatch pch y).doctorId = y.doctorId := by
                simp [applyPatientPatch, hnone]
              rw [this]
              exact hinv' y hy
            · have htru : jsTruthyNat pch.doctorId = true := by
                simp [jsTruthyNat, hsome, hn0]
              have hfind : (s.doctors.find?
                  (fun d => pch.doctorId == some d.id)).isNone = false := by
                cases hi : (s.doctors.find?
                    (fun d => pch.doctorId == some d.id)).isNone with
                | false => rfl
                | true => rw [htru, hi] at hcond; cases hcond
              obtain ⟨doc, hdoc'⟩ : ∃ doc, s.doctors.find?
                  (fun d => pch.doctorId == some d.id) = some doc := by
                cases hfo : s.doctors.find?
                    (fun d => pch.doctorId == some d.id) with
                | none => rw [hfo] at hfind; simp at hfind
                | some doc => exact ⟨doc, rfl⟩
              have hdocmem : doc ∈ s.doctors := List.mem_of_find?_eq_some hdoc'
              have hdocid : doc.id = n := by
                have hpred := List.find?_some hdoc'
                rw [hsome] at hpred
                have h1 : n = doc.id := by simpa using hpred
                exact h1.symm
              have : (applyPatientPatch pch y).doctorId = n := by
                simp [applyPatientPatch, hsome]
              rw [this]
              exact ⟨doc, hdocmem, hdocid⟩

/-- Claim C7 (amended) witness: on the concrete store both a create and a
field-free update preserve the invariant. -/
theorem patient_ref_integrity_preservation_witness :
    patientRefsOk (createPatient c7State c7Req).2 = true ∧
    patientRefsOk (updatePatient c7State 1 {}).2 = true :=
  patient_ref_integrity_preservation c7State c7Req 1 {} (by decide)
    (Or.inl rfl)

/-- A legacy store with patient key 1 and doctor key 1 and no visit
records, used for the role-check scenarios. -/
def c8State : LegacyState where
  lpatients := [{ key := 1, userId := 1, doctorId := 1,
                  dateOfAdmission := "2024-01-02", bloodGroup := "A+",
                  prescription := "", paymentStatus := "Paid" }]
  ldoctors := [{ key := 1, id := 1, empId := 1, charges := 100 }]
  lmedicines := []
  assignments := []
  visits := []
  wards := []
  nextKey := 3

/-- A visit submission for patient 1 and doctor 1. -/
def c8Visit : VisitReq := { pat_id := 1, doctor_id := 1, visits := "2024-06-01" }

/-- An assignment submission used against `c8State`. -/
def c8Assign : AssignReq :=
  { pat_id := 1, medicine_id := 2, prescription := "after food",
    medicine_qty := 4 }

/-- Claim C8 counterexample: a request with role "patient" — outside
admin/doctor/staff — is accepted by the visit-create handler: it stores a
visit and does not answer Forbidden, because the handler performs no role
check. -/
theorem visit_create_lacks_role_check :
    (recordDoctorVisit c8State "patient" c8Visit).1 = .ok ∧
    (recordDoctorVisit c8State "patient" c8Visit).2.visits.length = 1 ∧
    (recordDoctorVisit c8State "patient" c8Visit).1 ≠ .forbidden := by
  decide

/-- Claim C8 (amended): Assign Medicine rejects every well-formed request
from a role outside admin/doctor/staff with Forbidden, storing nothing,
and its role check passes (never answers Forbidden) for the three allowed
roles; the visit-create handler, by contrast, has no role check at all,
so Record Doctor Visit never answers Forbidden for any role. -/
theorem assignMedicine_role_policy
    (s : LegacyState) (role : String) (r : AssignReq)
    (hval : r.prescription ≠ "") :
    (¬(role = "doctor" ∨ role = "admin" ∨ role = "staff") →
      assignMedicine s role r = (.forbidden, s)) ∧
    ((role = "doctor" ∨ role = "admin" ∨ role = "staff") →
      (assignMedicine s role r).1 ≠ .forbidden) ∧
    (∀ (role2 : String) (vr : VisitReq),
      (recordDoctorVisit s role2 vr).1 ≠ .forbidden) := by
  refine ⟨?_, ?_, ?_⟩
  · intro h
    have h3 : role ≠ "doctor" ∧ role ≠ "admin" ∧ role ≠ "staff" := by
      refine ⟨?_, ?_, ?_⟩ <;> intro hc <;> exact h (by simp [hc])
    simp [assignMedicine, hval, h3]
  · intro hrole
    have hrole' : ¬(role ≠ "doctor" ∧ role ≠ "admin" ∧ role ≠ "staff") := by
      rcases hrole with h | h | h <;> simp [h]
    cases hfp : s.lpatients.find? (fun p => p.key == r.pat_id) with
    | none => simp [assignMedicine, hval, hrole', hfp]
    | some p =>
      cases hfm : s.lmedicines.find? (fun m => m.key == r.medicine_id) with
      | none => simp [assignMedicine, hval, hrole', hfp, hfm]
      | some m =>
        cases hfa : s.assignments.find? (fun a => a.pat_id == r.pat_id &&
            a.medicine_id == r.medicine_id) with
        | none => simp [assignMedicine, hval, hrole', hfp, hfm, hfa]
        | some a => simp [assignMedicine, hval, hrole', hfp, hfm, hfa]
  · intro role2 vr
    by_cases hv : vr.visits = ""
    · simp [recordDoctorVisit, hv]
    · cases hfp : s.lpatients.find? (fun p => p.key == vr.pat_id) with
      | none => simp [recordDoctorVisit, hv, hfp]
      | some p =>
        cases hfd : s.ldoctors.find? (fun d => d.key == vr.doctor_id) with
        | none => simp [recordDoctorVisit, hv, hfp, hfd]
        | some d =>
          cases hdup : (s.visits.find? (fun v => v.pat_id == vr.pat_id &&
              v.doctor_id == vr.doctor_id && v.visits == vr.visits)).isSome with
          | true => simp [recordDoctorVisit, hv, hfp, hfd, hdup]
          | false => simp [recordDoctorVisit, hv, hfp, hfd, hdup]

/-- Claim C8 (amended) witness: role "nurse" is rejected by Assign
Medicine with Forbidden, leaving the store unchanged. -/
theorem assignMedicine_role_policy_witness :
    assignMedicine c8State "nurse" c8Assign = (.forbidden, c8State) :=
  (assignMedicine_role_policy c8State "nurse" c8Assign (by decide)).1
    (by decide)

/-- A request whose referenced patient and medicine do not exist, used to
show the Forbidden answer precedes the existence checks. -/
def c10Req : AssignReq :=
  { pat_id := 9, medicine_id := 9, prescription := "daily",
    medicine_qty := 1 }

/-- Claim C10: for a well-formed Assign Medicine request from a role
outside admin/doctor/staff the handler answers Forbidden with the store
untouched, whatever the store contains — in particular when the
referenced patient or medicine does not exist — and a NotFound answer is
only reachable when the role is one of the three authorised ones. -/
theorem assign_authz_before_existence
    (s : LegacyState) (role : String) (r : AssignReq) :
    (r.prescription ≠ "" →
      ¬(role = "doctor" ∨ role = "admin" ∨ role = "staff") →
      assignMedicine s role r = (.forbidden, s)) ∧
    ((assignMedicine s role r).1 = .notFound →
      role = "doctor" ∨ role = "admin" ∨ role = "staff") := by
  constructor
  · intro hval h
    have h3 : role ≠ "doctor" ∧ role ≠ "admin" ∧ role ≠ "staff" := by
      refine ⟨?_, ?_, ?_⟩ <;> intro hc <;> exact h (by simp [hc])
    simp [assignMedicine, hval, h3]
  · intro h
    by_cases hv : r.prescription = ""
    · simp [assignMedicine, hv] at h
    · by_cases hr : role ≠ "doctor" ∧ role ≠ "admin" ∧ role ≠ "staff"
      · simp [assignMedicine, hv, hr] at h
      · tauto

/-- Claim C10 witness: on the empty store — no patient 9, no medicine 9 —
the unauthorised role "patient" still receives Forbidden, not NotFound,
and the store is unchanged. -/
theorem assign_authz_before_existence_witness :
    assignMedicine ⟨[], [], [], [], [], [], 1⟩ "patient" c10Req =
      (.forbidden, ⟨[], [], [], [], [], [], 1⟩) :=
  (assign_authz_before_existence ⟨[], [], [], [], [], [], 1⟩ "patient"
    c10Req).1 (by decide) (by decide)

/-- Claim C9: partial updates only overwrite fields present in the
payload — for the ward, assignment and patient update handlers, every
field of the target record that is absent from the payload keeps its
previous value, and on success the stored state differs only by applying
the patch to the (first) matching record. -/
theorem update_frame_property :
    (∀ (p : WardPatch) (w : Ward), p.wtype = none →
      (applyWardPatch p w).wtype = w.wtype) ∧
    (∀ (p : WardPatch) (w : Ward), p.charges = none →
      (applyWardPatch p w).charges = w.charges) ∧
    (∀ (p : WardPatch) (w : Ward), p.availability = none →
      (applyWardPatch p w).availability = w.availability) ∧
    (∀ (p : WardPatch) (w : Ward), p.max_cap = none →
      (applyWardPatch p w).max_cap = w.max_cap) ∧
    (∀ (p : AssignPatch) (a : MedAssign), p.prescription = none →
      (applyAssignPatch p a).prescription = a.prescription) ∧
    (∀ (p : AssignPatch) (a : MedAssign), p.medicine_qty = none →
      (applyAssignPatch p a).medicine_qty = a.medicine_qty) ∧
    (∀ (p : PatientPatch) (pt : Patient), p.id = none →
      (applyPatientPatch p pt).id = pt.id) ∧
    (∀ (p : PatientPatch) (pt : Patient), p.userId = none →
      (applyPatientPatch p pt).userId = pt.userId) ∧
    (∀ (p : PatientPatch) (pt : Patient), p.wardId = none →
      (applyPatientPatch p pt).wardId = pt.wardId) ∧
    (∀ (p : PatientPatch) (pt : Patient), p.doctorId = none →
      (applyPatientPatch p pt).doctorId = pt.doctorId) ∧
    (∀ (p : PatientPatch) (pt : Patient), p.dateOfAdm = none →
      (applyPatientPatch p pt).dateOfAdm = pt.dateOfAdm) ∧
    (∀ (p : PatientPatch) (pt : Patient), p.bloodGroup = none →
      (applyPatientPatch p pt).bloodGroup = pt.bloodGroup) ∧
    (∀ (p : PatientPatch) (pt : Patient), p.dob = none →
      (applyPatientPatch p pt).dob = pt.dob) ∧
    (∀ (p : PatientPatch) (pt : Patient), p.prescription = none →
      (applyPatientPatch p pt).prescription = pt.prescription) ∧
    (∀ (p : PatientPatch) (pt : Patient), p.bedAllocated = none →
      (applyPatientPatch p pt).bedAllocated = pt.bedAllocated) ∧
    (∀ (p : PatientPatch) (pt : Patient), p.paymentStatus = none →
      (applyPatientPatch p pt).paymentStatus = pt.paymentStatus) ∧
    (∀ (p : PatientPatch) (pt : Patient), p.patientProblem = none →
      (applyPatientPatch p pt).patientProblem = pt.patientProblem) ∧
    (∀ (s : LegacyState) (role : String) (wid : Nat) (p : WardPatch),
      (updateWard s role wid p).1 = .ok →
      (updateWard s role wid p).2.wards =
        updateFirst (fun w => w.key == wid) (applyWardPatch p) s.wards) ∧
    (∀ (s : LegacyState) (role : String) (aid : Nat) (p : AssignPatch),
      (updateMedicineAssigned s role aid p).1 = .ok →
      (updateMedicineAssigned s role aid p).2.assignments =
        updateFirst (fun a => a.key == aid) (applyAssignPatch p)
          s.assignments) ∧
    (∀ (s : ApiState) (pid : Nat) (p : PatientPatch),
      (updatePatient s pid p).1 = .ok →
      (updatePatient s pid p).2.patients =
        updateFirst (fun q => q.id == pid) (applyPatientPatch p)
          s.patients) := by
  refine ⟨?_, ?_, ?_, ?_, ?_, ?_, ?_, ?_, ?_, ?_, ?_, ?_, ?_, ?_, ?_, ?_,
    ?_, ?_, ?_, ?_⟩
  · intro p w h
    cases hc : p.charges <;> cases ha : p.availability <;>
      cases hm : p.max_cap <;>
      simp [applyWardPatch, jsTruthyStr, h, hc, ha, hm]
  · intro p w h
    cases ht : jsTruthyStr p.wtype <;> cases ha : p.availability <;>
      cases hm : p.max_cap <;>
      simp [applyWardPatch, h, ht, ha, hm]
  · intro p w h
    cases ht : jsTruthyStr p.wtype <;> cases hc : p.charges <;>
      cases hm : p.max_cap <;>
      simp [applyWardPatch, h, ht, hc, hm]
  · intro p w h
    cases ht : jsTruthyStr p.wtype <;> cases hc : p.charges <;>
      cases ha : p.availability <;>
      simp [applyWardPatch, h, ht, hc, ha]
  · intro p a h
    cases hq : p.medicine_qty <;>
      simp [applyAssignPatch, jsTruthyStr, h, hq]
  · intro p a h
    cases ht : jsTruthyStr p.prescription <;>
      simp [applyAssignPatch, h, ht]
  · intro p pt h; simp [applyPatientPatch, h]
  · intro p pt h; simp [applyPatientPatch, h]
  · intro p pt h; simp [applyPatientPatch, h]
  · intro p pt h; simp [applyPatientPatch, h]
  · intro p pt h; simp [applyPatientPatch, h]
  · intro p pt h; simp [applyPatientPatch, h]
  · intro p pt h; simp [applyPatientPatch, h]
  · intro p pt h; simp [applyPatientPatch, h]
  · intro p pt h; simp [applyPatientPatch, h]
  · intro p pt h; simp [applyPatientPatch, h]
  · intro p pt h; simp [applyPatientPatch, h]
  · intro s role wid p h
    by_cases h1 : p.wtype = some ""
    · simp [updateWard, h1] at h
    · by_cases h2 : role = "admin"
      · cases hw : s.wards.find? (fun w => w.key == wid) with
        | none => simp [updateWard, h1, h2, hw] at h
        | some w => simp [updateWard, h1, h2, hw]
      · simp [updateWard, h1, h2] at h
  · intro s role aid p h
    by_cases h1 : p.prescription = some ""
    · simp [updateMedicineAssigned, h1] at h
    · by_cases h2 : role ≠ "doctor" ∧ role ≠ "admin" ∧ role ≠ "staff"
      · simp [updateMedicineAssigned, h1, h2] at h
      · cases ha : s.assignments.find? (fun a => a.key == aid) with
        | none => simp [updateMedicineAssigned, h1, h2, ha] at h
        | some a => simp [updateMedicineAssigned, h1, h2, ha]
  · intro s pid p h
    cases hp : s.patients.find? (fun q => q.id == pid) with
    | none => simp [updatePatient, hp] at h
    | some p0 =>
      cases hcond : jsTruthyNat p.doctorId &&
          (s.doctors.find? (fun d => p.doctorId == some d.id)).isNone with
      | true => simp [updatePatient, hp, hcond] at h
      | false =>
        cases hv : patientPatchValid p with
        | false => simp [updatePatient, hp, hcond, hv] at h
        | true => simp [updatePatient, hp, hcond, hv]

/-- Claim C9 witness: the empty ward patch leaves the ward type — and by
the theorem every absent field — at its stored value. -/
theorem update_frame_property_witness :
    (applyWardPatch {} ⟨1, "general", 100, true, 10⟩).wtype = "general" :=
  update_frame_property.1 {} ⟨1, "general", 100, true, 10⟩ rfl

end Hospital
